import Mathlib

/-!
Verification development for the terma-ai command-safety engine and its
surrounding pipeline (`src/termai/core/safety.py`, `src/termai/cli.py`,
`src/termai/core/display.py`, `src/termai/core/executor.py`,
`src/termai/core/react_agent.py`, `src/termai/core/llm.py`).

Commands are modelled as their lists of ASCII character codes; the Python
`re.search(pattern, command, re.IGNORECASE)` calls are modelled by a small
matcher for exactly the regex features these patterns use: literal
characters, `\b` word boundaries, `\s+`, `\s*`, and (for one pattern) a
trailing alternation group, expanded into several whole patterns.
`re.IGNORECASE` is modelled by ASCII case folding of both pattern and input.
-/

/-- ASCII lower-casing of a character code (Python case-insensitive match). -/
def lowerCode (n : Nat) : Nat := if 65 ≤ n ∧ n ≤ 90 then n + 32 else n

/-- Python regex `\s` on ASCII: space, tab, newline, carriage return,
vertical tab, form feed. -/
def isSpaceCode (n : Nat) : Bool :=
  n == 32 || n == 9 || n == 10 || n == 13 || n == 11 || n == 12

/-- Python regex word character `[A-Za-z0-9_]` (ASCII). -/
def isWordCode (n : Nat) : Bool :=
  (48 ≤ n && n ≤ 57) || (65 ≤ n && n ≤ 90) || (97 ≤ n && n ≤ 122) || n == 95

/-- One atom of the regex subset used by `safety.py`. -/
inductive RAtom where
  | lit : Nat → RAtom
  | ws1 : RAtom
  | ws0 : RAtom
  | wb : RAtom
deriving DecidableEq, Repr

/-- Compile a pattern source string (as written in `safety.py`) into atoms:
`\b` is a word boundary, `\s+` and `\s*` quantified whitespace, `\c` an
escaped literal, anything else a literal character. -/
def compilePat : List Char → List RAtom
  | [] => []
  | '\\' :: 'b' :: rest => .wb :: compilePat rest
  | '\\' :: 's' :: '+' :: rest => .ws1 :: compilePat rest
  | '\\' :: 's' :: '*' :: rest => .ws0 :: compilePat rest
  | '\\' :: c :: rest => .lit c.toNat :: compilePat rest
  | c :: rest => .lit c.toNat :: compilePat rest

/-- Compile a pattern from its Lean string literal. -/
def pat (s : String) : List RAtom := compilePat s.data

/-- Character codes of a command string. -/
def codes (s : String) : List Nat := s.data.map Char.toNat

/-- Word-ness of the character left of the current position
(`none` = start of string). -/
def wordAt : Option Nat → Bool
  | none => false
  | some c => isWordCode c

/-- Word-ness of the character at the current position. -/
def wordAtHead : List Nat → Bool
  | [] => false
  | x :: _ => isWordCode x

/-- Match a compiled pattern against a prefix of the input, tracking the
previous character for `\b`; backtracking semantics of Python `re`.
Structured with explicit fuel so that it reduces in the kernel; every
recursive call strictly decreases `input length + pattern length`, so any
fuel above that sum is enough (`matchFuel_stable` below). -/
def matchFuel : Nat → List RAtom → Option Nat → List Nat → Bool
  | 0, _, _, _ => false
  | _ + 1, [], _, _ => true
  | f + 1, .lit c :: rest, _, x :: xs =>
      lowerCode x == lowerCode c && matchFuel f rest (some x) xs
  | _ + 1, .lit _ :: _, _, [] => false
  | f + 1, .ws1 :: rest, _, x :: xs =>
      isSpaceCode x && (matchFuel f rest (some x) xs || matchFuel f (.ws1 :: rest) (some x) xs)
  | _ + 1, .ws1 :: _, _, [] => false
  | f + 1, .ws0 :: rest, prev, [] => matchFuel f rest prev []
  | f + 1, .ws0 :: rest, prev, x :: xs =>
      matchFuel f rest prev (x :: xs) || (isSpaceCode x && matchFuel f (.ws0 :: rest) (some x) xs)
  | f + 1, .wb :: rest, prev, xs =>
      (wordAt prev != wordAtHead xs) && matchFuel f rest prev xs

/-- Match a compiled pattern at the current position, with sufficient fuel. -/
def matchRA (p : List RAtom) (prev : Option Nat) (xs : List Nat) : Bool :=
  matchFuel (xs.length + p.length + 1) p prev xs

/-- Try to match at every start position (Python `re.search`). -/
def searchFrom (p : List RAtom) : Option Nat → List Nat → Bool
  | prev, [] => matchRA p prev []
  | prev, x :: xs => matchRA p prev (x :: xs) || searchFrom p (some x) xs

/-- `re.search(p, s, re.IGNORECASE) is not None`, on character codes. -/
def reSearch (p : List RAtom) (xs : List Nat) : Bool := searchFrom p none xs

/-! ## Pattern tables from `SafetyChecker` (`safety.py`) -/

/-- Level 5 - system destruction (`_calculate_risk_score`). -/
def level5_patterns : List (List RAtom) :=
  [ pat "\\brm\\s+-rf\\s+/",
    pat "\\bdd\\s+if=/dev/zero",
    pat "\\bmkfs\\b",
    pat "\\bfdisk\\b",
    pat "\\bparted\\b",
    pat "\\bkill\\s+-9\\s+-1" ]

/-- Level 4 - critical system modification. -/
def level4_patterns : List (List RAtom) :=
  [ pat ">\\s*/etc/",
    pat ">\\s*/boot/",
    pat ">\\s*/bin/",
    pat "\\bchmod\\s+777\\s+-R\\s+/",
    pat "\\bchown\\s+root\\s+/" ]

/-- Level 3 - system modification with sudo. -/
def level3_patterns : List (List RAtom) :=
  [ pat "\\bsudo\\b",
    pat "\\biptables\\s+-F",
    pat "\\bchmod\\s+777\\s+-R\\b" ]

/-- Level 2 - file deletion and modification operations. -/
def level2_patterns : List (List RAtom) :=
  [ pat "\\brm\\s+",
    pat "\\bunlink\\b",
    pat "\\bmv\\s+",
    pat "\\bchmod\\s+",
    pat "\\bchown\\s+",
    pat ">\\s+",
    pat "\\brmdir\\s+" ]

/-- Level 1 - safe read operations. -/
def read_only_patterns : List (List RAtom) :=
  [ pat "\\bls\\b", pat "\\bcat\\b", pat "\\bfind\\b", pat "\\bgrep\\b", pat "\\bpwd\\b",
    pat "\\bdf\\b", pat "\\bdu\\b", pat "\\bhead\\b", pat "\\btail\\b", pat "\\bless\\b",
    pat "\\bmore\\b", pat "\\bwc\\b", pat "\\bstat\\b", pat "\\bfile\\b", pat "\\bwhich\\b",
    pat "\\bwhereis\\b", pat "\\blocate\\b", pat "\\btype\\b", pat "\\bcommand\\s+-v\\b" ]

/-- `SafetyChecker._calculate_risk_score`: severity tiers checked
most-severe-first, read-only allowlist, then the default of 2. -/
def calculate_risk_score (xs : List Nat) : Nat :=
  if level5_patterns.any (fun p => reSearch p xs) then 5
  else if level4_patterns.any (fun p => reSearch p xs) then 4
  else if level3_patterns.any (fun p => reSearch p xs) then 3
  else if level2_patterns.any (fun p => reSearch p xs) then 2
  else if read_only_patterns.any (fun p => reSearch p xs) then 1
  else 2

/-- `SafetyChecker._get_risk_level`. -/
def get_risk_level (xs : List Nat) : String :=
  let score := calculate_risk_score xs
  if score ≥ 5 then "CRITICAL"
  else if score ≥ 4 then "HIGH"
  else if score ≥ 3 then "MEDIUM-HIGH"
  else if score ≥ 2 then "MEDIUM"
  else "LOW"

/-- `SafetyChecker._get_dangerous_patterns`: each entry is the list of
expanded alternatives of one source regex (only the `apt` entry has more
than one, from the group `(remove|purge|autoremove)`), with its reason. -/
def dangerous_patterns : List (List (List RAtom) × String) :=
  [ ([pat "\\brm\\s+-rf\\s+/"], "CRITICAL: 'rm -rf /' can destroy entire system"),
    ([pat "\\brm\\s+-rf\\s+\\*"], "CRITICAL: 'rm -rf *' can delete all files"),
    ([pat "\\brm\\s+-rf\\b"], "HIGH: Recursive deletion can remove multiple files"),
    ([pat "\\brm\\s+"], "MEDIUM: File deletion - data cannot be recovered easily"),
    ([pat "\\bunlink\\b"], "MEDIUM: File deletion command"),
    ([pat "\\bdelete\\b"], "MEDIUM: File deletion operation"),
    ([pat "\\bmv\\s+"], "MEDIUM: Moving/renaming files can overwrite existing files"),
    ([pat "\\bcp\\s+"], "LOW-MEDIUM: Copying files can overwrite existing files"),
    ([pat "\\bchmod\\s+"], "MEDIUM: Changing file permissions"),
    ([pat "\\bchown\\s+"], "MEDIUM: Changing file ownership"),
    ([pat "\\bchgrp\\s+"], "MEDIUM: Changing file group"),
    ([pat "\\btouch\\s+"], "LOW: Creating/modifying file timestamps"),
    ([pat ">\\s+"], "MEDIUM: Redirecting output can overwrite files"),
    ([pat ">>\\s+"], "LOW: Appending to files (safer but still modification)"),
    ([pat "\\btee\\s+"], "MEDIUM: Writing to files"),
    ([pat "\\bdd\\s+if=/dev/zero"], "CRITICAL: 'dd if=/dev/zero' can overwrite disks"),
    ([pat "\\bmkfs\\b"], "CRITICAL: Filesystem formatting can destroy data"),
    ([pat "\\bfdisk\\b"], "CRITICAL: Disk partitioning can destroy data"),
    ([pat "\\bparted\\b"], "CRITICAL: Partition editing can destroy data"),
    ([pat "\\bformat\\b"], "CRITICAL: Formatting can destroy data"),
    ([pat "\\bsudo\\b"], "HIGH: Sudo commands require elevated privileges"),
    ([pat "\\bsu\\b"], "HIGH: Privilege escalation"),
    ([pat "\\bdoas\\b"], "HIGH: Privilege escalation"),
    ([pat ">\\s*/etc/"], "CRITICAL: Modifying system configuration files"),
    ([pat ">\\s*/boot/"], "CRITICAL: Modifying boot files"),
    ([pat ">\\s*/bin/"], "CRITICAL: Modifying system binaries"),
    ([pat ">\\s*/usr/bin/"], "CRITICAL: Modifying system binaries"),
    ([pat ">\\s*/sbin/"], "CRITICAL: Modifying system binaries"),
    ([pat ">\\s*/lib/"], "CRITICAL: Modifying system libraries"),
    ([pat "\\bchmod\\s+777\\s+-R\\b"], "HIGH: Recursive 777 permissions are insecure"),
    ([pat "\\bchmod\\s+777\\b"], "MEDIUM-HIGH: 777 permissions are insecure"),
    ([pat "\\bchown\\s+root\\b"], "HIGH: Changing ownership to root"),
    ([pat "\\bchmod\\s+-R\\b"], "MEDIUM: Recursive permission changes"),
    ([pat "\\bchown\\s+-R\\b"], "MEDIUM: Recursive ownership changes"),
    ([pat "\\biptables\\s+-F"], "HIGH: Flushing firewall rules"),
    ([pat "\\biptables\\s+-X"], "HIGH: Deleting firewall rules"),
    ([pat "\\bip\\s+route\\s+del"], "MEDIUM: Deleting network routes"),
    ([pat "\\bkill\\s+-9\\s+-1"], "CRITICAL: Killing all processes"),
    ([pat "\\bkillall\\s+-9"], "HIGH: Force killing all instances"),
    ([pat "\\bkill\\s+-9\\b"], "MEDIUM: Force killing processes"),
    ([pat "\\bpkill\\s+"], "MEDIUM: Killing processes by name"),
    ([pat "\\bapt\\s+remove", pat "\\bapt\\s+purge", pat "\\bapt\\s+autoremove"],
      "MEDIUM: Removing packages"),
    ([pat "\\byum\\s+remove"], "MEDIUM: Removing packages"),
    ([pat "\\bdnf\\s+remove"], "MEDIUM: Removing packages"),
    ([pat "\\bpacman\\s+-R"], "MEDIUM: Removing packages"),
    ([pat "\\brmdir\\s+"], "MEDIUM: Removing directories"),
    ([pat "\\bmkdir\\s+-p\\s+/"], "HIGH: Creating directories in system paths") ]

/-- `SafetyChecker._get_warning_patterns`. -/
def warning_patterns : List (List RAtom × String) :=
  [ (pat "\\bchmod\\s+-R\\b", "Warning: recursive permission changes can be dangerous"),
    (pat "\\bchown\\s+-R\\b", "Warning: recursive ownership changes can be dangerous"),
    (pat "\\bgrep\\s+-r\\b", "Warning: recursive grep on large directories may be slow"),
    (pat "\\bfind\\s+/\\b", "Warning: searching from root may take a long time"),
    (pat "\\bwget\\b", "Warning: downloading files from internet"),
    (pat "\\bcurl\\b", "Warning: network requests can be slow or fail"),
    (pat "\\bapt\\b", "Warning: package management may require privileges"),
    (pat "\\byum\\b", "Warning: package management may require privileges"),
    (pat "\\bdnf\\b", "Warning: package management may require privileges"),
    (pat "\\bpacman\\b", "Warning: package management may require privileges") ]

/-- `SafetyChecker._is_command_risky`: first dangerous pattern that matches
supplies the reason. -/
def is_command_risky (xs : List Nat) : Bool × String :=
  match dangerous_patterns.find? (fun pr => pr.1.any (fun p => reSearch p xs)) with
  | some pr => (true, pr.2)
  | none => (false, "")

/-- `SafetyChecker._has_command_warning`. -/
def has_command_warning (xs : List Nat) : Bool × String :=
  match warning_patterns.find? (fun pr => reSearch pr.1 xs) with
  | some pr => (true, pr.2)
  | none => (false, "")

/-! ## `SafetyChecker.check_commands` (the SafetyGate) -/

/-- One entry of `check_commands`' `risky_commands` list. -/
structure RiskyEntry where
  index : Nat
  command : String
  reason : String
  risk_level : String
  risk_score : Nat
deriving DecidableEq, Repr

/-- One entry of `check_commands`' `warnings` list. -/
structure WarningEntry where
  index : Nat
  command : String
  warning : String
deriving DecidableEq, Repr

/-- The dict returned by `SafetyChecker.check_commands`. -/
structure SafetyReport where
  safe : Bool
  safe_commands : List String
  risky_commands : List RiskyEntry
  warnings : List WarningEntry
  total_commands : Nat
  has_risky : Bool
deriving DecidableEq, Repr

/-- The enumerate loop of `check_commands`, started at index `i`; returns
`(risky_commands, safe_commands, warnings)` in original index order. -/
def check_loop (i : Nat) : List String → List RiskyEntry × List String × List WarningEntry
  | [] => ([], [], [])
  | cmd :: rest =>
    let rsw := check_loop (i + 1) rest
    let cs := codes cmd
    if (is_command_risky cs).1 then
      ({ index := i, command := cmd, reason := (is_command_risky cs).2,
         risk_level := get_risk_level cs, risk_score := calculate_risk_score cs } :: rsw.1,
       rsw.2.1, rsw.2.2)
    else
      (rsw.1, cmd :: rsw.2.1,
        if (has_command_warning cs).1 then
          { index := i, command := cmd, warning := (has_command_warning cs).2 } :: rsw.2.2
        else rsw.2.2)

/-- `SafetyChecker.check_commands`. -/
def check_commands (commands : List String) : SafetyReport :=
  let rsw := check_loop 0 commands
  { safe := decide (rsw.1.length = 0),
    safe_commands := rsw.2.1,
    risky_commands := rsw.1,
    warnings := rsw.2.2,
    total_commands := commands.length,
    has_risky := decide (0 < rsw.1.length) }

/-! ## The CLI re-merge and confirmation gate (`cli.py run`, `display.py`) -/

/-- Python `list.insert(i, x)`: insert before position `i`, appending when
`i` is at or past the end. -/
def pyInsert (i : Nat) (x : α) : List α → List α
  | [] => [x]
  | y :: ys => if i = 0 then x :: y :: ys else y :: pyInsert (i - 1) x ys

/-- `cli.py run` lines 141-146: start from `safe_commands` and insert each
risky command at its recorded original index, in list order. -/
def merge_commands (report : SafetyReport) : List String :=
  report.risky_commands.foldl (fun acc r => pyInsert r.index r.command acc)
    report.safe_commands

/-- One `rich` `Confirm.ask(..., default=False)` prompt: consumes the next
user answer; no input (`none`, or an exhausted script) yields the default
`false`. -/
def ask_confirm : List (Option Bool) → Bool × List (Option Bool)
  | [] => (false, [])
  | none :: rest => (false, rest)
  | some b :: rest => (b, rest)

/-- `DisplayManager.confirm_risky_execution` (the ConfirmationProtocol):
for a critical batch two sequential affirmative answers are required; a
negative first answer returns `false` without a second prompt. -/
def confirm_risky_execution (has_critical : Bool) (answers : List (Option Bool)) : Bool :=
  if has_critical then
    let (response, rest) := ask_confirm answers
    if response then (ask_confirm rest).1 else false
  else
    (ask_confirm answers).1

/-- The execution-gating slice of `cli.py run` (confirm on, no dry run):
safety-check the generated commands, re-merge, and for a risky batch ask
`confirm_risky_execution`; `none` models the `Exit(0)` cancellation path
(zero commands executed), `some l` the list handed to the executor. -/
def run_gate (commands : List String) (answers : List (Option Bool)) : Option (List String) :=
  let safety_result := check_commands commands
  let all_commands := merge_commands safety_result
  if safety_result.has_risky then
    let has_critical := safety_result.risky_commands.any (fun c => c.risk_level == "CRITICAL")
    if confirm_risky_execution has_critical answers then some all_commands else none
  else
    some all_commands

/-! ## Executor results and the ReAct agent (`executor.py`, `react_agent.py`)

The executor and the agent exchange plain Python dicts; the `_act` bug
hunted by the spec hinges on dict keys, so dicts are modelled as
association lists of string keys and `PyVal` values with Python
`dict.get` semantics. -/

/-- A Python value stored in a result dict. -/
inductive PyVal where
  | int : Int → PyVal
  | str : String → PyVal
  | bool : Bool → PyVal
deriving DecidableEq, Repr

/-- `d.get(key, default)`. -/
def pyGet (d : List (String × PyVal)) (key : String) (dflt : PyVal) : PyVal :=
  match d.find? (fun kv => kv.1 == key) with
  | some kv => kv.2
  | none => dflt

/-- Python truthiness of a `PyVal`. -/
def pyTruthy : PyVal → Bool
  | .int n => n != 0
  | .str s => s != ""
  | .bool b => b

/-- Python `v != 0` for a `PyVal` (`False == 0` and `True == 1` in Python). -/
def pyNeZero : PyVal → Bool
  | .int n => n != 0
  | .str _ => true
  | .bool b => b

/-- How one shell command can come back from the OS
(`CommandExecutor._execute_single_command`'s three branches). -/
inductive ExecOutcome where
  | completed : Int → String → String → ExecOutcome
  | timedOut : ExecOutcome
  | raised : String → ExecOutcome
deriving DecidableEq, Repr

/-- `CommandExecutor._execute_single_command`: the result dict; note its
integer exit status key is named `return_code` and `success` is
`returncode == 0`. -/
def execute_single_command : ExecOutcome → List (String × PyVal)
  | .completed rc out err =>
      [("return_code", .int rc), ("stdout", .str out), ("stderr", .str err),
       ("success", .bool (rc == 0)), ("timed_out", .bool false)]
  | .timedOut =>
      [("return_code", .int (-1)), ("stdout", .str ""),
       ("stderr", .str "Command timed out after 30 seconds"),
       ("success", .bool false), ("timed_out", .bool true)]
  | .raised msg =>
      [("return_code", .int (-1)), ("stdout", .str ""),
       ("stderr", .str ("Execution error: " ++ msg)),
       ("success", .bool false), ("timed_out", .bool false)]

/-- The per-command entry of `CommandExecutor.execute_commands`: the single
command result plus the keys the batch loop adds (`execution_time`, a
float, is omitted: nothing modelled reads it). -/
def execute_commands_entry (i : Nat) (cmd explanation : String) (o : ExecOutcome) :
    List (String × PyVal) :=
  execute_single_command o ++
    [("command_index", .int i), ("command", .str cmd), ("explanation", .str explanation)]

/-- One action planned by the ReAct agent (`_plan` output). -/
structure PlannedAction where
  command : String
  description : String
  todo_id : Option Nat
deriving DecidableEq, Repr

/-- `ReActAgent._act` on one action: safety check, optional risky-action
confirmation (declined ⇒ the skipped dict), else execution; the returned
dict reads `result.get("exit_code", ...)` although the executor result
carries the key `return_code`. -/
def act (action : PlannedAction) (auto_confirm : Bool) (answers : List (Option Bool))
    (o : ExecOutcome) : List (String × PyVal) :=
  let safety_result := check_commands [action.command]
  let has_critical := safety_result.risky_commands.any (fun c => c.risk_level == "CRITICAL")
  if safety_result.has_risky ∧ ¬auto_confirm ∧
      ¬confirm_risky_execution has_critical answers then
    [("success", .bool false), ("skipped", .bool true),
     ("reason", .str "User cancelled risky action"), ("critical_failure", .bool false)]
  else
    let result := execute_commands_entry 0 action.command action.description o
    [("success", pyGet result "success" (.bool false)),
     ("stdout", pyGet result "stdout" (.str "")),
     ("stderr", pyGet result "stderr" (.str "")),
     ("exit_code", pyGet result "exit_code" (.int (-1))),
     ("critical_failure",
       .bool (!(pyTruthy (pyGet result "success" (.bool false))) &&
              pyNeZero (pyGet result "exit_code" (.int 0))))]

/-- A ReAct todo item (the fields the loop logic reads). -/
structure Todo where
  id : Nat
  task : String
  completed : Bool
deriving DecidableEq, Repr

/-- `_reason` output fields consumed by the loop. -/
structure Reasoning where
  goal_achieved : Bool
  goal_impossible : Bool
  analysis : String
  update_todo_list : Bool
deriving DecidableEq, Repr

/-- `_plan` output fields consumed by the loop. -/
structure Plan where
  no_action_needed : Bool
  actions : List PlannedAction
deriving DecidableEq, Repr

/-- One entry of `observation_history`. -/
structure ObsEntry where
  iteration : Nat
  state : String
  type : String
  actions_taken : List PlannedAction
deriving DecidableEq, Repr

/-- One entry of `action_history`. -/
structure HistEntry where
  iteration : Nat
  action : PlannedAction
  result : List (String × PyVal)
deriving DecidableEq, Repr

/-- The mutable state of one `achieve_goal` call. -/
structure LoopState where
  current_iteration : Nat
  goal_achieved : Bool
  goal_impossible : Bool
  final_reasoning : String
  todo_list : List Todo
  observation_history : List ObsEntry
  action_history : List HistEntry
  reasoning_history : List Reasoning
deriving DecidableEq, Repr

/-- The agent's collaborators and environment: the LLM calls
(`_create_todo_list`, `_reason`, `_update_todo_list`, `_plan`), the
filesystem snapshot (`_observe`, summarised as an opaque string), the
interactive confirmation answers, and the OS outcome of each executed
command. All are arbitrary functions of the visible agent state. -/
structure Collaborator where
  observe : LoopState → String
  create_todos : LoopState → List Todo
  reason : LoopState → Reasoning
  update_todos : LoopState → Reasoning → List Todo
  plan : LoopState → Reasoning → Plan
  confirm_answers : LoopState → PlannedAction → List (Option Bool)
  exec_outcome : LoopState → PlannedAction → ExecOutcome

/-- `_mark_todo_completed`'s inner search: mark the first todo with the
given id completed. -/
def mark_first_todo (id : Nat) : List Todo → List Todo
  | [] => []
  | t :: ts => if t.id == id then { t with completed := true } :: ts else t :: mark_first_todo id ts

/-- `ReActAgent._mark_todo_completed` over the zipped
`(action, result)` pairs of one iteration; Python tests
`action.get("todo_id")` for truthiness, so id 0 does not mark. -/
def mark_todo_completed (pairs : List (PlannedAction × List (String × PyVal)))
    (todos : List Todo) : List Todo :=
  pairs.foldl
    (fun ts p =>
      if pyTruthy (pyGet p.2 "success" (.bool false)) then
        match p.1.todo_id with
        | some id => if id ≠ 0 then mark_first_todo id ts else ts
        | none => ts
      else ts)
    todos

/-- The Step-5 `for action in actions` loop of `achieve_goal`: run each
action through `_act`, append to `action_history`, and on a
`critical_failure` result set `goal_impossible` and break. Also returns
the iteration-local `action_results` pairs used for todo marking. -/
def act_phase (C : Collaborator) (auto_confirm : Bool) :
    List PlannedAction → LoopState → List (PlannedAction × List (String × PyVal)) →
    LoopState × List (PlannedAction × List (String × PyVal))
  | [], st, acc => (st, acc)
  | a :: rest, st, acc =>
    let r := act a auto_confirm (C.confirm_answers st a) (C.exec_outcome st a)
    let st' := { st with action_history :=
      st.action_history ++ [{ iteration := st.current_iteration, action := a, result := r }] }
    if pyTruthy (pyGet r "critical_failure" (.bool false)) then
      ({ st' with goal_impossible := true }, acc ++ [(a, r)])
    else
      act_phase C auto_confirm rest st' (acc ++ [(a, r)])

/-- One pass of the `while` body of `achieve_goal` (iterations increment,
observe, reason with its two terminal checks, conditional todo update,
plan with its two `continue` guards, act phase, post-observation, todo
marking). -/
def loop_body (C : Collaborator) (auto_confirm : Bool) (st : LoopState) : LoopState :=
  let st := { st with current_iteration := st.current_iteration + 1 }
  let current_state := C.observe st
  let st := { st with observation_history := st.observation_history ++
    [{ iteration := st.current_iteration, state := current_state,
       type := "before_action", actions_taken := [] }] }
  let reasoning := C.reason st
  let st := { st with reasoning_history := st.reasoning_history ++ [reasoning] }
  if reasoning.goal_achieved then
    { st with goal_achieved := true, final_reasoning := reasoning.analysis }
  else if reasoning.goal_impossible then
    { st with goal_impossible := true, final_reasoning := reasoning.analysis }
  else
    let st := if reasoning.update_todo_list then
      { st with todo_list := C.update_todos st reasoning } else st
    let plan := C.plan st reasoning
    if plan.no_action_needed then st
    else if plan.actions.isEmpty then st
    else
      let stp := act_phase C auto_confirm plan.actions st []
      let st := stp.1
      let new_state := C.observe st
      let st := { st with observation_history := st.observation_history ++
        [({ iteration := st.current_iteration, state := new_state,
            type := "after_action", actions_taken := plan.actions } : ObsEntry)] }
      { st with todo_list := mark_todo_completed stp.2 st.todo_list }

/-- The `while current_iteration < max_iterations and not goal_achieved
and not goal_impossible` loop; the fuel argument starts at
`max_iterations`, which bounds the iteration count since every body pass
increments `current_iteration` by exactly one. -/
def loop_iters (C : Collaborator) (auto_confirm : Bool) (max_iterations : Nat) :
    Nat → LoopState → LoopState
  | 0, st => st
  | n + 1, st =>
    if st.current_iteration < max_iterations ∧ ¬st.goal_achieved ∧ ¬st.goal_impossible then
      loop_iters C auto_confirm max_iterations n (loop_body C auto_confirm st)
    else st

/-- The final dict of `ReActAgent.achieve_goal` (display-only fields
omitted). -/
structure GoalResult where
  status : String
  iterations : Nat
  goal_achieved : Bool
  final_reasoning : String
  todo_list : List Todo
  observation_history : List ObsEntry
  action_history : List HistEntry
  reasoning_history : List Reasoning
  total_actions : Nat
deriving DecidableEq, Repr

/-- The reset state at the top of `achieve_goal`, after the initial
observation is recorded and the initial todo list created. -/
def init_state (C : Collaborator) : LoopState :=
  let st : LoopState :=
    { current_iteration := 0, goal_achieved := false, goal_impossible := false,
      final_reasoning := "", todo_list := [], observation_history := [],
      action_history := [], reasoning_history := [] }
  let st := { st with observation_history :=
    [{ iteration := 0, state := C.observe st, type := "initial", actions_taken := [] }] }
  { st with todo_list := C.create_todos st }

/-- `ReActAgent.achieve_goal`: reset state, take the initial observation,
create the todo list, run the loop, and report. -/
def achieve_goal (C : Collaborator) (auto_confirm : Bool) (max_iterations : Nat) :
    GoalResult :=
  let stf := loop_iters C auto_confirm max_iterations max_iterations (init_state C)
  { status := if stf.goal_achieved then "achieved"
      else if stf.goal_impossible then "impossible" else "max_iterations",
    iterations := stf.current_iteration,
    goal_achieved := stf.goal_achieved,
    final_reasoning := stf.final_reasoning,
    todo_list := stf.todo_list,
    observation_history := stf.observation_history,
    action_history := stf.action_history,
    reasoning_history := stf.reasoning_history,
    total_actions := stf.action_history.length }

/-! ## JSON parsing (`json.loads`) and the two response parsers
(`llm.py _parse_response`, `react_agent.py _parse_json_response`)

`json.loads` is modelled by a recursive-descent reader for JSON documents:
`null`/`true`/`false`, numbers (kept as their lexeme, since no modelled
code reads a numeric value; `NaN`/`Infinity`/`-Infinity` are accepted as
Python does), strings with the standard escapes (`\uXXXX` of a valid
scalar included), arrays and objects. Fuel makes it structurally
recursive; every recursive call follows the consumption of input, so
`3 * length + 16` fuel is ample. -/

/-- A JSON value (number kept as its source lexeme). -/
inductive Json where
  | null : Json
  | bool : Bool → Json
  | num : String → Json
  | str : String → Json
  | arr : List Json → Json
  | obj : List (String × Json) → Json

/-- Skip JSON whitespace. -/
def skipWs : List Char → List Char
  | c :: rest =>
    if c = ' ' ∨ c = '\t' ∨ c = '\n' ∨ c = '\r' then skipWs rest else c :: rest
  | [] => []

/-- Longest digit prefix. -/
def takeDigits : List Char → List Char × List Char
  | c :: rest =>
    if c.isDigit then
      let (ds, r) := takeDigits rest
      (c :: ds, r)
    else ([], c :: rest)
  | [] => ([], [])

/-- Optional JSON fraction part. -/
def parseFrac : List Char → Option (List Char × List Char)
  | '.' :: r =>
    let (fs, rr) := takeDigits r
    if fs.isEmpty then none else some ('.' :: fs, rr)
  | s => some ([], s)

/-- Optional JSON exponent part. -/
def parseExp : List Char → Option (List Char × List Char)
  | c :: r =>
    if c = 'e' ∨ c = 'E' then
      let (sgn, r1) := match r with
        | '+' :: rr => (['+'], rr)
        | '-' :: rr => (['-'], rr)
        | _ => ([], r)
      let (ds, r2) := takeDigits r1
      if ds.isEmpty then none else some (c :: (sgn ++ ds), r2)
    else some ([], c :: r)
  | [] => some ([], [])

/-- JSON number lexeme (sign, integer part without leading zeros,
optional fraction and exponent). -/
def parseNum (s : List Char) : Option (List Char × List Char) :=
  let (sgn, s1) := match s with
    | '-' :: r => (['-'], r)
    | _ => ([], s)
  match takeDigits s1 with
  | ([], _) => none
  | (ds, r1) =>
    if ds.length > 1 ∧ ds.headD '0' = '0' then none
    else
      match parseFrac r1 with
      | none => none
      | some (fr, r2) =>
        match parseExp r2 with
        | none => none
        | some (ex, r3) => some (sgn ++ ds ++ fr ++ ex, r3)

/-- Hexadecimal digit value. -/
def hexVal (c : Char) : Option Nat :=
  if c.isDigit then some (c.toNat - 48)
  else if 'a' ≤ c ∧ c ≤ 'f' then some (c.toNat - 87)
  else if 'A' ≤ c ∧ c ≤ 'F' then some (c.toNat - 55)
  else none

/-- JSON string body after the opening quote (strict mode: raw control
characters are rejected, as Python `json.loads` does by default). -/
def parseStrBody : Nat → List Char → List Char → Option (String × List Char)
  | 0, _, _ => none
  | _ + 1, acc, '"' :: rest => some (String.mk acc.reverse, rest)
  | f + 1, acc, '\\' :: c :: rest =>
    match c with
    | '"' => parseStrBody f ('"' :: acc) rest
    | '\\' => parseStrBody f ('\\' :: acc) rest
    | '/' => parseStrBody f ('/' :: acc) rest
    | 'b' => parseStrBody f ('\x08' :: acc) rest
    | 'f' => parseStrBody f ('\x0c' :: acc) rest
    | 'n' => parseStrBody f ('\n' :: acc) rest
    | 'r' => parseStrBody f ('\x0d' :: acc) rest
    | 't' => parseStrBody f ('\t' :: acc) rest
    | 'u' =>
      (match rest with
       | h1 :: h2 :: h3 :: h4 :: rest' =>
         match hexVal h1, hexVal h2, hexVal h3, hexVal h4 with
         | some a, some b, some c2, some d =>
           parseStrBody f (Char.ofNat (((a * 16 + b) * 16 + c2) * 16 + d) :: acc) rest'
         | _, _, _, _ => none
       | _ => none)
    | _ => none
  | f + 1, acc, c :: rest => if c.toNat < 32 then none else parseStrBody f (c :: acc) rest
  | _ + 1, _, [] => none

/-- Reader mode: a value, the items of an array already opened, or the
members of an object already opened. -/
inductive JMode where
  | value : JMode
  | arrItems : List Json → JMode
  | objItems : List (String × Json) → JMode

/-- The recursive-descent JSON reader. -/
def parseJ : Nat → JMode → List Char → Option (Json × List Char)
  | 0, _, _ => none
  | f + 1, .value, s =>
    match skipWs s with
    | '{' :: rest =>
      (match skipWs rest with
       | '}' :: rest' => some (.obj [], rest')
       | r => parseJ f (.objItems []) r)
    | '[' :: rest =>
      (match skipWs rest with
       | ']' :: rest' => some (.arr [], rest')
       | r => parseJ f (.arrItems []) r)
    | '"' :: rest =>
      (match parseStrBody (rest.length + 1) [] rest with
       | some (s2, rest') => some (.str s2, rest')
       | none => none)
    | 't' :: 'r' :: 'u' :: 'e' :: rest => some (.bool true, rest)
    | 'f' :: 'a' :: 'l' :: 's' :: 'e' :: rest => some (.bool false, rest)
    | 'n' :: 'u' :: 'l' :: 'l' :: rest => some (.null, rest)
    | 'N' :: 'a' :: 'N' :: rest => some (.num "NaN", rest)
    | 'I' :: 'n' :: 'f' :: 'i' :: 'n' :: 'i' :: 't' :: 'y' :: rest =>
      some (.num "Infinity", rest)
    | '-' :: 'I' :: 'n' :: 'f' :: 'i' :: 'n' :: 'i' :: 't' :: 'y' :: rest =>
      some (.num "-Infinity", rest)
    | s' =>
      (match parseNum s' with
       | some (lex, rest) => some (.num (String.mk lex), rest)
       | none => none)
  | f + 1, .arrItems acc, s =>
    (match parseJ f .value s with
     | none => none
     | some (v, rest) =>
       match skipWs rest with
       | ',' :: rest' => parseJ f (.arrItems (acc ++ [v])) rest'
       | ']' :: rest' => some (.arr (acc ++ [v]), rest')
       | _ => none)
  | f + 1, .objItems acc, s =>
    (match parseJ f .value s with
     | some (.str k, rest) =>
       (match skipWs rest with
        | ':' :: rest' =>
          (match parseJ f .value rest' with
           | none => none
           | some (v, rest2) =>
             match skipWs rest2 with
             | ',' :: r3 => parseJ f (.objItems (acc ++ [(k, v)])) r3
             | '}' :: r3 => some (.obj (acc ++ [(k, v)]), r3)
             | _ => none)
        | _ => none)
     | _ => none)

/-- `json.loads` on a character list: one document, whitespace allowed
around it, nothing after it. -/
def jsonLoads (s : List Char) : Option Json :=
  match parseJ (3 * s.length + 16) .value s with
  | some (v, rest) => if (skipWs rest).isEmpty then some v else none
  | none => none

/-- Python `str.strip()` (whitespace both ends). -/
def pyStripChars (s : List Char) : List Char :=
  ((s.dropWhile fun c => isSpaceCode c.toNat).reverse.dropWhile
      fun c => isSpaceCode c.toNat).reverse

/-- Python `dict.get` on a parsed JSON object: with duplicate keys the
later member wins, as in a Python dict built left to right. -/
def jget (kvs : List (String × Json)) (key : String) (dflt : Json) : Json :=
  match kvs.reverse.find? (fun kv => kv.1 == key) with
  | some kv => kv.2
  | none => dflt

/-- The dict `LLMClient._parse_response` returns when it returns. -/
structure ParsedResponse where
  commands : List Json
  explanations : List Json
  safe : Json
  error : Option String

/-- The `while len(explanations) < len(commands): explanations.append(...)`
padding loop of `_parse_response`; fuel `cmdLen` covers every reachable
iteration count. -/
def pad_loop : Nat → List Json → Nat → List Json
  | 0, explanations, _ => explanations
  | f + 1, explanations, cmdLen =>
    if explanations.length < cmdLen then
      pad_loop f (explanations ++ [.str "Execute this command"]) cmdLen
    else explanations

/-- The `while len(commands) < len(explanations): commands.pop()` loop of
`_parse_response`: `pop()` removes the last element and raises
`IndexError` on an empty list (modelled as `Except.error`); popping the
shorter list never closes the gap, see `pop_loop_spec`. -/
def pop_loop : Nat → List Json → Nat → Except String (List Json)
  | 0, commands, _ => .ok commands
  | f + 1, commands, explLen =>
    if commands.length < explLen then
      if commands.isEmpty then .error "IndexError: pop from empty list"
      else pop_loop f commands.dropLast explLen
    else .ok commands

/-- `LLMClient._parse_response`: `Except.error` models an exception
propagating out of the `try` block (only `json.JSONDecodeError` is
caught there). -/
def parse_response (content : String) : Except String ParsedResponse :=
  match jsonLoads (pyStripChars content.data) with
  | none =>
    .ok { commands := [], explanations := [], safe := .bool false,
          error := some ("Invalid JSON response: " ++ String.mk (content.data.take 100) ++ "...") }
  | some (.obj kvs) =>
    (match jget kvs "commands" (.arr []), jget kvs "explanations" (.arr []) with
     | .arr commands, .arr explanations =>
       let explanations := pad_loop commands.length explanations commands.length
       (match pop_loop (commands.length + 1) commands explanations.length with
        | .error e => .error e
        | .ok commands2 =>
          .ok { commands := commands2, explanations := explanations,
                safe := jget kvs "safe" (.bool true), error := none })
     | _, _ => .error "TypeError: len() of a non-list commands/explanations value")
  | some _ => .error "ValueError: Response is not a dictionary"

/-- First index at which `sub` occurs in `s` (`str.find` without its
`-1`-on-absence convention, which `strFindFrom` adds back). -/
def strFindAux : List Char → List Char → Option Nat
  | s, sub =>
    if sub.isPrefixOf s then some 0
    else
      match s with
      | [] => none
      | _ :: t => (strFindAux t sub).map (· + 1)

/-- Python `s.find(sub, start)`: `-1` when absent. -/
def strFindFrom (s sub : List Char) (start : Nat) : Int :=
  match strFindAux (s.drop start) sub with
  | some i => (start + i : Nat)
  | none => -1

/-- Python slice `s[a:b]` with a non-negative start and a possibly
negative stop. -/
def pySlice (s : List Char) (a : Nat) (b : Int) : List Char :=
  let n : Int := s.length
  let b2 : Int := if b < 0 then max (n + b) 0 else min b n
  (s.take b2.toNat).drop a

/-- Result of `ReActAgent._parse_json_response`: a parsed value, or the
fallback error dict carrying the first 200 characters of the (possibly
fence-extracted) content as `analysis`. -/
inductive ReactParseResult where
  | ok : Json → ReactParseResult
  | errorResult : String → ReactParseResult

/-- `ReActAgent._parse_json_response`: strip, extract a ````` ```json
````` or ````` ``` ````` fenced block when present, then `json.loads`. -/
def react_parse_json (content : String) : ReactParseResult :=
  let c0 := pyStripChars content.data
  let jsonFence := "```json".data
  let fence := "```".data
  let c1 :=
    if (strFindAux c0 jsonFence).isSome then
      let start := (strFindAux c0 jsonFence).getD 0 + 7
      let e := strFindFrom c0 fence start
      pyStripChars (pySlice c0 start e)
    else if (strFindAux c0 fence).isSome then
      let start := (strFindAux c0 fence).getD 0 + 3
      let e := strFindFrom c0 fence start
      if e > (start : Int) then pyStripChars (pySlice c0 start e) else c0
    else c0
  match jsonLoads c1 with
  | some j => .ok j
  | none => .errorResult (String.mk (c1.take 200))

/-- A well-formed generation response. -/
def good_response : String :=
  "\x7b\"commands\": [\"ls\"], \"explanations\": [\"List files\"], \"safe\": true\x7d"

/-- The same response wrapped in markdown code fences. -/
def fenced_good_response : String := "```json\n" ++ good_response ++ "\n```"

/-- A response whose explanations outnumber its commands. -/
def mismatch_more_expl : String :=
  "\x7b\"commands\": [\"ls\"], \"explanations\": [\"List files\", \"Extra\"], \"safe\": true\x7d"

/-- A response whose commands outnumber its explanations. -/
def mismatch_more_cmds : String :=
  "\x7b\"commands\": [\"ls\", \"pwd\"], \"explanations\": [\"List files\"], \"safe\": true\x7d"

/-- The risky entry `check_commands` builds for a command at an index. -/
def mk_risky_entry (i : Nat) (cmd : String) : RiskyEntry :=
  { index := i, command := cmd, reason := (is_command_risky (codes cmd)).2,
    risk_level := get_risk_level (codes cmd), risk_score := calculate_risk_score (codes cmd) }

/-- The warning entry `check_commands` builds for a command at an index. -/
def mk_warning_entry (i : Nat) (cmd : String) : WarningEntry :=
  { index := i, command := cmd, warning := (has_command_warning (codes cmd)).2 }

/-- A collaborator whose reasoning step never reports the goal achieved or
impossible and which plans no actions. -/
def idle_collab : Collaborator :=
  { observe := fun _ => "",
    create_todos := fun _ => [],
    reason := fun _ =>
      { goal_achieved := false, goal_impossible := false, analysis := "",
        update_todo_list := false },
    update_todos := fun st _ => st.todo_list,
    plan := fun _ _ => { no_action_needed := true, actions := [] },
    confirm_answers := fun _ _ => [],
    exec_outcome := fun _ _ => .completed 0 "" "" }

/-- A collaborator that each iteration plans one safe command whose
execution always fails with exit status 1, and whose reasoning step never
reports the goal achieved or impossible. -/
def fail_collab : Collaborator :=
  { observe := fun _ => "",
    create_todos := fun _ => [],
    reason := fun _ =>
      { goal_achieved := false, goal_impossible := false, analysis := "",
        update_todo_list := false },
    update_todos := fun st _ => st.todo_list,
    plan := fun _ _ =>
      { no_action_needed := false,
        actions := [{ command := "true", description := "always fails", todo_id := none }] },
    confirm_answers := fun _ _ => [],
    exec_outcome := fun _ _ => .completed 1 "" "command failed" }

example : jsonLoads good_response.data =
    some (.obj [("commands", .arr [.str "ls"]),
                ("explanations", .arr [.str "List files"]),
                ("safe", .bool true)]) := rfl
example : jsonLoads fenced_good_response.data = none := rfl
example : parse_response good_response =
    .ok { commands := [.str "ls"], explanations := [.str "List files"],
          safe := .bool true, error := none } := rfl
example : parse_response mismatch_more_cmds =
    .ok { commands := [.str "ls", .str "pwd"],
          explanations := [.str "List files", .str "Execute this command"],
          safe := .bool true, error := none } := rfl
example : parse_response mismatch_more_expl =
    .error "IndexError: pop from empty list" := rfl
example : react_parse_json fenced_good_response =
    .ok (.obj [("commands", .arr [.str "ls"]),
               ("explanations", .arr [.str "List files"]),
               ("safe", .bool true)]) := rfl
example : jsonLoads ("[1, 2.5e3, -0.1, null]".data) =
    some (.arr [.num "1", .num "2.5e3", .num "-0.1", .null]) := rfl
example : jsonLoads ("not json".data) = none := rfl

example : calculate_risk_score (codes "sudo rm -rf /") = 5 := by decide
example : calculate_risk_score (codes "echo hello") = 2 := by decide
example : (is_command_risky (codes "echo hello")).1 = false := by decide
example : calculate_risk_score (codes "touch file") = 1 := by decide
example : (is_command_risky (codes "touch file")).1 = true := by decide
example : get_risk_level (codes "rm -rf /") = "CRITICAL" := by decide
example : get_risk_level (codes "ls -la") = "LOW" := by decide
example :
    run_gate ["ls -la", "rm -rf /", "pwd"] [some true, some true] =
      some ["ls -la", "rm -rf /", "pwd"] := by decide
example : run_gate ["ls -la", "rm -rf /", "pwd"] [some true, some false] = none := by decide
example : run_gate ["ls -la", "rm -rf /", "pwd"] [some true] = none := by decide
example : run_gate ["echo hello"] [] = some ["echo hello"] := by decide

/-! ## Claim C1 -/

/-- **C1**: every command matching at least one level-5 pattern gets risk
score 5 and risk level CRITICAL, regardless of any co-occurring
lower-severity pattern, because the severity tiers are checked
most-severe-first and the first hit wins. -/
theorem level5_match_is_critical (cmd : String)
    (h : ∃ p ∈ level5_patterns, reSearch p (codes cmd) = true) :
    calculate_risk_score (codes cmd) = 5 ∧ get_risk_level (codes cmd) = "CRITICAL" := by
  have hany : level5_patterns.any (fun p => reSearch p (codes cmd)) = true := by
    rcases h with ⟨p, hp, hm⟩
    exact List.any_eq_true.mpr ⟨p, hp, hm⟩
  refine ⟨?_, ?_⟩
  · unfold calculate_risk_score
    rw [hany]
    rfl
  · unfold get_risk_level calculate_risk_score
    rw [hany]
    rfl

/-- Witness for C1 at `sudo rm -rf /`: it matches a level-5 pattern, also
matches the lower-severity `sudo` level-3 pattern, and classifies as
score 5, CRITICAL. -/
theorem level5_match_is_critical_witness :
    (∃ p ∈ level5_patterns, reSearch p (codes "sudo rm -rf /") = true) ∧
    (∃ p ∈ level3_patterns, reSearch p (codes "sudo rm -rf /") = true) ∧
    (calculate_risk_score (codes "sudo rm -rf /") = 5 ∧
      get_risk_level (codes "sudo rm -rf /") = "CRITICAL") :=
  ⟨by decide, by decide, level5_match_is_critical "sudo rm -rf /" (by decide)⟩

/-! ## Claim C4 -/

/-- **C4**: when the batch contains a CRITICAL risky command, execution
happens only after two sequential affirmative answers; a negative (or
defaulted) answer at either stage cancels the whole batch, and each
prompt defaults to no when the user supplies no input. -/
theorem critical_batch_double_confirmation (commands : List String)
    (answers : List (Option Bool))
    (h : ∃ rc ∈ (check_commands commands).risky_commands, rc.risk_level = "CRITICAL") :
    run_gate commands answers =
      (if (ask_confirm answers).1 = true ∧ (ask_confirm (ask_confirm answers).2).1 = true
        then some (merge_commands (check_commands commands)) else none) ∧
    ask_confirm [] = (false, []) ∧
    (∀ rest, ask_confirm (none :: rest) = (false, rest)) := by
  obtain ⟨rc, hmem, hcrit⟩ := h
  have hrisky : (check_commands commands).has_risky = true := by
    have hpos : 0 < (check_commands commands).risky_commands.length :=
      List.length_pos.mpr (List.ne_nil_of_mem hmem)
    exact decide_eq_true hpos
  have hcritb :
      (check_commands commands).risky_commands.any (fun c => c.risk_level == "CRITICAL") = true :=
    List.any_eq_true.mpr ⟨rc, hmem, by simp [hcrit]⟩
  refine ⟨?_, rfl, fun rest => rfl⟩
  simp only [run_gate, confirm_risky_execution, hrisky, hcritb, if_true]
  rcases hask : ask_confirm answers with ⟨a1, rest1⟩
  cases a1 <;> simp

/-- Witness for C4: for the batch `["rm -rf /"]` (whose risky entry is
CRITICAL) and the simulated answers yes-then-no, the gate cancels. -/
theorem critical_batch_double_confirmation_witness :
    (∃ rc ∈ (check_commands ["rm -rf /"]).risky_commands, rc.risk_level = "CRITICAL") ∧
    (run_gate ["rm -rf /"] [some true, some false] =
      (if (ask_confirm [some true, some false]).1 = true ∧
          (ask_confirm (ask_confirm [some true, some false]).2).1 = true
        then some (merge_commands (check_commands ["rm -rf /"])) else none) ∧
      ask_confirm [] = (false, []) ∧
      (∀ rest, ask_confirm (none :: rest) = (false, rest))) :=
  ⟨by decide,
    critical_batch_double_confirmation ["rm -rf /"] [some true, some false] (by decide)⟩

/-! ## The SafetyGate characterisation (shared by C2, C3, C5) -/

/-- The enumerate loop of `check_commands`, in closed form: risky entries
are the risky-matching commands paired with their original indices, safe
commands the non-matching ones in order, warnings the warning-matching
subset of the safe ones. -/
theorem check_loop_eq (i : Nat) (cmds : List String) :
    check_loop i cmds =
      ( ((List.enumFrom i cmds).filter fun p => (is_command_risky (codes p.2)).1).map
          (fun p => mk_risky_entry p.1 p.2),
        cmds.filter fun c => !(is_command_risky (codes c)).1,
        ((List.enumFrom i cmds).filter fun p =>
            !(is_command_risky (codes p.2)).1 && (has_command_warning (codes p.2)).1).map
          (fun p => mk_warning_entry p.1 p.2) ) := by
  induction cmds generalizing i with
  | nil => rfl
  | cons c rest ih =>
    simp only [check_loop, ih, List.enumFrom_cons, List.filter_cons]
    by_cases hr : (is_command_risky (codes c)).1
    · simp [hr, mk_risky_entry]
    · by_cases hw : (has_command_warning (codes c)).1 <;>
        simp [hr, hw, mk_warning_entry]

/-- Every index produced by `enumFrom i` is at least `i`. -/
theorem enumFrom_index_ge {α : Type} (l : List α) :
    ∀ (i : Nat) (p : Nat × α), p ∈ List.enumFrom i l → i ≤ p.1 := by
  induction l with
  | nil => simp [List.enumFrom]
  | cons a t ih =>
    intro i p hp
    rw [List.enumFrom_cons] at hp
    rcases List.mem_cons.mp hp with h | h
    · simp [h]
    · exact Nat.le_of_succ_le (ih (i + 1) p h)

/-- An `enumFrom` pair recovers its element by position. -/
theorem enumFrom_getD {α : Type} (d : α) (l : List α) :
    ∀ (i : Nat) (p : Nat × α), p ∈ List.enumFrom i l → l.getD (p.1 - i) d = p.2 := by
  induction l with
  | nil => simp [List.enumFrom]
  | cons a t ih =>
    intro i p hp
    rw [List.enumFrom_cons] at hp
    rcases List.mem_cons.mp hp with h | h
    · simp [h]
    · have hge := enumFrom_index_ge t (i + 1) p h
      have hrec := ih (i + 1) p h
      rw [show p.1 - i = (p.1 - (i + 1)) + 1 by omega]
      simpa using hrec

/-- Filtering an enumeration on the element and dropping the indices is
filtering the list. -/
theorem enumFrom_filter_map_snd {α : Type} (q : α → Bool) (l : List α) :
    ∀ i : Nat,
      (((List.enumFrom i l).filter fun p => q p.2).map Prod.snd) = l.filter q := by
  induction l with
  | nil => simp
  | cons a t ih =>
    intro i
    rw [List.enumFrom_cons]
    by_cases h : q a <;> simp [List.filter_cons, h, ih]

/-- Inserting at position zero prepends. -/
theorem pyInsert_zero {α : Type} (x : α) (l : List α) : pyInsert 0 x l = x :: l := by
  cases l <;> simp [pyInsert]

/-- Inserting at a positive position keeps the head. -/
theorem pyInsert_cons_pos {α : Type} (m : Nat) (x c : α) (l : List α) (h : m ≠ 0) :
    pyInsert m x (c :: l) = c :: pyInsert (m - 1) x l := by
  simp [pyInsert, h]

/-- Folding index-shifted inserts over a list whose recorded indices are
all past the head commutes with the head. -/
theorem fold_insert_cons (pairs : List (Nat × String)) :
    ∀ (i : Nat) (c : String) (l : List String), (∀ p ∈ pairs, i + 1 ≤ p.1) →
      pairs.foldl (fun acc p => pyInsert (p.1 - i) p.2 acc) (c :: l) =
        c :: pairs.foldl (fun acc p => pyInsert (p.1 - (i + 1)) p.2 acc) l := by
  induction pairs with
  | nil => intros; rfl
  | cons p ps ih =>
    intro i c l hge
    have h1 : i + 1 ≤ p.1 := hge p (List.mem_cons_self p ps)
    simp only [List.foldl_cons]
    rw [pyInsert_cons_pos (p.1 - i) p.2 c l (by omega),
        show p.1 - i - 1 = p.1 - (i + 1) by omega]
    exact ih i c _ (fun q hq => hge q (List.mem_cons_of_mem p hq))

/-- Re-inserting the risky pairs of the enumeration into the safe sublist
at their shifted indices rebuilds the batch. -/
theorem merge_loop_eq (cmds : List String) :
    ∀ i : Nat,
      (((List.enumFrom i cmds).filter fun p => (is_command_risky (codes p.2)).1)).foldl
          (fun acc p => pyInsert (p.1 - i) p.2 acc)
          (cmds.filter fun c => !(is_command_risky (codes c)).1) = cmds := by
  induction cmds with
  | nil => intro i; rfl
  | cons c rest ih =>
    intro i
    rw [List.enumFrom_cons, List.filter_cons, List.filter_cons]
    have hbound : ∀ p ∈ (List.enumFrom (i + 1) rest).filter
        (fun p => (is_command_risky (codes p.2)).1), i + 1 ≤ p.1 := by
      intro p hp
      exact enumFrom_index_ge rest (i + 1) p (List.mem_of_mem_filter hp)
    by_cases hr : (is_command_risky (codes c)).1
    · simp only [hr, if_pos, Bool.not_true, if_neg, Bool.false_eq_true,
        not_false_eq_true, List.foldl_cons]
      rw [Nat.sub_self, pyInsert_zero, fold_insert_cons _ i c _ hbound]
      rw [ih (i + 1)]
    · simp only [hr, Bool.false_eq_true, if_neg, not_false_eq_true, Bool.not_false, if_pos]
      rw [fold_insert_cons _ i c _ hbound]
      rw [ih (i + 1)]

/-! ## Claim C5 -/

/-- **C5**: re-merging the SafetyGate output — starting from
`safe_commands` and inserting each risky command at its recorded original
index in ascending order, exactly as `cli.py run` does — reconstructs the
original batch, so the executed sequence equals the generated one. -/
theorem execution_order_preserved (commands : List String) :
    merge_commands (check_commands commands) = commands := by
  have hrc : (check_commands commands).risky_commands =
      ((List.enumFrom 0 commands).filter fun p => (is_command_risky (codes p.2)).1).map
        (fun p => mk_risky_entry p.1 p.2) := by
    simp [check_commands, check_loop_eq]
  have hsc : (check_commands commands).safe_commands =
      commands.filter fun c => !(is_command_risky (codes c)).1 := by
    simp [check_commands, check_loop_eq]
  unfold merge_commands
  rw [hrc, hsc, List.foldl_map]
  simpa [mk_risky_entry] using merge_loop_eq commands 0

/-- Splitting a list by a predicate preserves total length. -/
theorem length_filter_partition {α : Type} (q : α → Bool) (l : List α) :
    (l.filter q).length + (l.filter fun x => !q x).length = l.length := by
  induction l with
  | nil => rfl
  | cons a t ih => by_cases h : q a <;> simp [List.filter_cons, h, ← ih] <;> omega

/-- An `enumFrom` pair's element belongs to the list. -/
theorem enumFrom_snd_mem {α : Type} (l : List α) :
    ∀ (i : Nat) (p : Nat × α), p ∈ List.enumFrom i l → p.2 ∈ l := by
  induction l with
  | nil => simp [List.enumFrom]
  | cons a t ih =>
    intro i p hp
    rw [List.enumFrom_cons] at hp
    rcases List.mem_cons.mp hp with h | h
    · simp [h]
    · exact List.mem_cons_of_mem a (ih (i + 1) p h)

/-- `decide (n = 0)` is the negation of `decide (0 < n)`. -/
theorem decide_zero_not_pos (n : Nat) : decide (n = 0) = !decide (0 < n) := by
  cases n <;> simp

/-- The `(index, command)` pairs of the risky entries are exactly the
dangerous-matching positions of the enumerated batch. -/
theorem risky_pairs_eq (commands : List String) :
    (check_commands commands).risky_commands.map (fun rc => (rc.index, rc.command)) =
      (List.enumFrom 0 commands).filter (fun p => (is_command_risky (codes p.2)).1) := by
  have hrc : (check_commands commands).risky_commands =
      ((List.enumFrom 0 commands).filter fun p => (is_command_risky (codes p.2)).1).map
        (fun p => mk_risky_entry p.1 p.2) := by
    simp [check_commands, check_loop_eq]
  rw [hrc, List.map_map]
  have hcomp : ((fun rc : RiskyEntry => (rc.index, rc.command)) ∘
      fun p : Nat × String => mk_risky_entry p.1 p.2) = id := by
    funext p
    simp [mk_risky_entry]
  rw [hcomp, List.map_id]

/-! ## Claim C3 -/

/-- **C3**: `check_commands` partitions its batch: safe and risky entries
together exhaust the commands, risky entries are exactly the
dangerous-matching positions and safe commands exactly the rest (so no
index lands in both), warnings attach only to safe commands, `has_risky`
holds iff some command is risky, and `safe` is the negation of
`has_risky` (warnings alone never clear `safe`). -/
theorem safety_gate_partition (commands : List String) :
    (check_commands commands).safe_commands.length +
        (check_commands commands).risky_commands.length = commands.length ∧
    (check_commands commands).safe_commands =
      commands.filter (fun c => !(is_command_risky (codes c)).1) ∧
    (check_commands commands).risky_commands.map (fun rc => (rc.index, rc.command)) =
      (List.enumFrom 0 commands).filter (fun p => (is_command_risky (codes p.2)).1) ∧
    (∀ rc ∈ (check_commands commands).risky_commands,
      rc.command ∉ (check_commands commands).safe_commands) ∧
    (∀ w ∈ (check_commands commands).warnings,
      w.command ∈ (check_commands commands).safe_commands ∧
      (is_command_risky (codes w.command)).1 = false ∧
      commands.getD w.index "" = w.command) ∧
    ((check_commands commands).has_risky = true ↔
      (check_commands commands).risky_commands ≠ []) ∧
    (check_commands commands).safe = !(check_commands commands).has_risky ∧
    (check_commands commands).total_commands = commands.length := by
  have hrc : (check_commands commands).risky_commands =
      ((List.enumFrom 0 commands).filter fun p => (is_command_risky (codes p.2)).1).map
        (fun p => mk_risky_entry p.1 p.2) := by
    simp [check_commands, check_loop_eq]
  have hsc : (check_commands commands).safe_commands =
      commands.filter fun c => !(is_command_risky (codes c)).1 := by
    simp [check_commands, check_loop_eq]
  have hwc : (check_commands commands).warnings =
      ((List.enumFrom 0 commands).filter fun p =>
          !(is_command_risky (codes p.2)).1 && (has_command_warning (codes p.2)).1).map
        (fun p => mk_warning_entry p.1 p.2) := by
    simp [check_commands, check_loop_eq]
  refine ⟨?_, hsc, ?_, ?_, ?_, ?_, ?_, rfl⟩
  · rw [hrc, hsc, List.length_map]
    have hlen := congrArg List.length
      (enumFrom_filter_map_snd (fun c => (is_command_risky (codes c)).1) commands 0)
    rw [List.length_map] at hlen
    rw [hlen, Nat.add_comm]
    exact length_filter_partition _ commands
  · exact risky_pairs_eq commands
  · intro rc hmem
    rw [hrc] at hmem
    obtain ⟨p, hp, hmk⟩ := List.mem_map.mp hmem
    have hpred := (List.mem_filter.mp hp).2
    rw [hsc]
    intro hin
    have := (List.mem_filter.mp hin).2
    rw [← hmk] at this
    simp [mk_risky_entry] at this
    rw [this] at hpred
    simp at hpred
  · intro w hmem
    rw [hwc] at hmem
    obtain ⟨p, hp, hmk⟩ := List.mem_map.mp hmem
    have hpred := (List.mem_filter.mp hp).2
    have hpmem := List.mem_of_mem_filter hp
    have hsafe : (is_command_risky (codes p.2)).1 = false := by
      rcases Bool.and_eq_true .. |>.mp hpred with ⟨h1, _⟩
      simpa using h1
    have hwarn : (has_command_warning (codes p.2)).1 = true := by
      rcases Bool.and_eq_true .. |>.mp hpred with ⟨_, h2⟩
      exact h2
    have hcmd : w.command = p.2 := by rw [← hmk]; simp [mk_warning_entry]
    have hidx : w.index = p.1 := by rw [← hmk]; simp [mk_warning_entry]
    refine ⟨?_, by rw [hcmd]; exact hsafe, ?_⟩
    · rw [hsc, hcmd]
      exact List.mem_filter.mpr ⟨enumFrom_snd_mem commands 0 p hpmem, by simp [hsafe]⟩
    · rw [hcmd, hidx]
      have := enumFrom_getD "" commands 0 p hpmem
      simpa using this
  · have : (check_commands commands).has_risky =
        decide (0 < (check_commands commands).risky_commands.length) := rfl
    rw [this]
    constructor
    · intro h
      have := of_decide_eq_true h
      exact List.ne_nil_of_length_pos this
    · intro h
      exact decide_eq_true (List.length_pos.mpr h)
  · have h1 : (check_commands commands).safe =
        decide ((check_commands commands).risky_commands.length = 0) := rfl
    have h2 : (check_commands commands).has_risky =
        decide (0 < (check_commands commands).risky_commands.length) := rfl
    rw [h1, h2, decide_zero_not_pos]

/-! ## Claim C2 -/

/-- **C2 counterexample**: `echo hello` scores 2 (the default) yet is not
placed in `risky_commands` (it lands in `safe_commands`), and `touch
file` is placed in `risky_commands` although it scores 1; so membership
in `risky_commands` is not equivalent to a score of at least 2. -/
theorem risky_threshold_counterexample :
    calculate_risk_score (codes "echo hello") = 2 ∧
    (check_commands ["echo hello"]).risky_commands = [] ∧
    (check_commands ["echo hello"]).safe_commands = ["echo hello"] ∧
    (is_command_risky (codes "touch file")).1 = true ∧
    calculate_risk_score (codes "touch file") = 1 ∧
    (check_commands ["touch file"]).risky_commands.map (fun rc => rc.command) =
      ["touch file"] := by decide

/-- **C2 amended**: a command is placed in `risky_commands` by
`check_commands` iff it matches one of the dangerous patterns
(`_is_command_risky`), not iff its risk score is at least 2. -/
theorem risky_iff_dangerous_pattern (commands : List String) (i : Nat) (c : String) :
    (i, c) ∈ (check_commands commands).risky_commands.map (fun rc => (rc.index, rc.command)) ↔
      ((i, c) ∈ List.enumFrom 0 commands ∧ (is_command_risky (codes c)).1 = true) := by
  rw [risky_pairs_eq commands]
  exact List.mem_filter

/-! ## Case-insensitivity of the classifier (C10) -/

/-- Codes at least 65 are not whitespace. -/
theorem isSpaceCode_false_of_ge (a : Nat) (h : 65 ≤ a) : isSpaceCode a = false := by
  unfold isSpaceCode
  simp only [Bool.or_eq_false_iff, beq_eq_false_iff_ne, ne_eq]
  omega

/-- Upper-case letters are word characters. -/
theorem isWordCode_true_of_upper (a : Nat) (h : 65 ≤ a ∧ a ≤ 90) : isWordCode a = true := by
  unfold isWordCode
  simp only [Bool.or_eq_true, Bool.and_eq_true, decide_eq_true_eq, beq_iff_eq]
  omega

/-- Lower-case letters are word characters. -/
theorem isWordCode_true_of_lower (a : Nat) (h : 97 ≤ a ∧ a ≤ 122) : isWordCode a = true := by
  unfold isWordCode
  simp only [Bool.or_eq_true, Bool.and_eq_true, decide_eq_true_eq, beq_iff_eq]
  omega

/-- Codes with the same lower-casing agree on whitespace-ness and
word-character-ness. -/
theorem lowerCode_congr_flags (a b : Nat) (h : lowerCode a = lowerCode b) :
    isSpaceCode a = isSpaceCode b ∧ isWordCode a = isWordCode b := by
  unfold lowerCode at h
  rcases Decidable.em (65 ≤ a ∧ a ≤ 90) with h1 | h1 <;>
    rcases Decidable.em (65 ≤ b ∧ b ≤ 90) with h2 | h2
  · rw [if_pos h1, if_pos h2] at h
    obtain rfl : a = b := by omega
    exact ⟨rfl, rfl⟩
  · rw [if_pos h1, if_neg h2] at h
    have hb : 97 ≤ b ∧ b ≤ 122 := by omega
    rw [isSpaceCode_false_of_ge a (by omega), isSpaceCode_false_of_ge b (by omega),
      isWordCode_true_of_upper a h1, isWordCode_true_of_lower b hb]
    exact ⟨rfl, rfl⟩
  · rw [if_neg h1, if_pos h2] at h
    have ha : 97 ≤ a ∧ a ≤ 122 := by omega
    rw [isSpaceCode_false_of_ge a (by omega), isSpaceCode_false_of_ge b (by omega),
      isWordCode_true_of_lower a ha, isWordCode_true_of_upper b h2]
    exact ⟨rfl, rfl⟩
  · rw [if_neg h1, if_neg h2] at h
    subst h
    exact ⟨rfl, rfl⟩

/-- `wordAt` only depends on the lower-cased previous character. -/
theorem wordAt_congr (p q : Option Nat) (h : p.map lowerCode = q.map lowerCode) :
    wordAt p = wordAt q := by
  cases p <;> cases q <;> simp only [Option.map_none', Option.map_some',
    Option.some.injEq, reduceCtorEq] at h
  · rfl
  · exact (lowerCode_congr_flags _ _ h).2

/-- `wordAtHead` only depends on the lower-cased input. -/
theorem wordAtHead_congr (xs ys : List Nat) (h : xs.map lowerCode = ys.map lowerCode) :
    wordAtHead xs = wordAtHead ys := by
  cases xs <;> cases ys <;> simp only [List.map_nil, List.map_cons,
    List.cons.injEq, reduceCtorEq] at h
  · rfl
  · exact (lowerCode_congr_flags _ _ h.1).2

/-- The matcher is invariant under changing the letter case of the input
(same fuel on both sides; the two inputs have equal length). -/
theorem matchFuel_congr (f : Nat) :
    ∀ (p : List RAtom) (prev prev' : Option Nat) (xs ys : List Nat),
      prev.map lowerCode = prev'.map lowerCode →
      xs.map lowerCode = ys.map lowerCode →
      matchFuel f p prev xs = matchFuel f p prev' ys := by
  induction f with
  | zero => intros; rfl
  | succ f ih =>
    intro p prev prev' xs ys hprev hxs
    match p with
    | [] => rfl
    | .lit c :: rest =>
      cases xs with
      | nil =>
        cases ys with
        | nil => rfl
        | cons y ys' => exact absurd hxs (by simp)
      | cons x xs' =>
        cases ys with
        | nil => exact absurd hxs (by simp)
        | cons y ys' =>
          simp only [List.map_cons, List.cons.injEq] at hxs
          obtain ⟨hxy, htl⟩ := hxs
          simp only [matchFuel]
          rw [hxy, ih rest (some x) (some y) xs' ys' (by simp [hxy]) htl]
    | .ws1 :: rest =>
      cases xs with
      | nil =>
        cases ys with
        | nil => rfl
        | cons y ys' => exact absurd hxs (by simp)
      | cons x xs' =>
        cases ys with
        | nil => exact absurd hxs (by simp)
        | cons y ys' =>
          simp only [List.map_cons, List.cons.injEq] at hxs
          obtain ⟨hxy, htl⟩ := hxs
          simp only [matchFuel]
          rw [(lowerCode_congr_flags x y hxy).1,
            ih rest (some x) (some y) xs' ys' (by simp [hxy]) htl,
            ih (.ws1 :: rest) (some x) (some y) xs' ys' (by simp [hxy]) htl]
    | .ws0 :: rest =>
      cases xs with
      | nil =>
        cases ys with
        | nil =>
          simp only [matchFuel]
          exact ih rest prev prev' [] [] hprev rfl
        | cons y ys' => exact absurd hxs (by simp)
      | cons x xs' =>
        cases ys with
        | nil => exact absurd hxs (by simp)
        | cons y ys' =>
          have hxs' := hxs
          simp only [List.map_cons, List.cons.injEq] at hxs'
          obtain ⟨hxy, htl⟩ := hxs'
          simp only [matchFuel]
          rw [(lowerCode_congr_flags x y hxy).1,
            ih rest prev prev' (x :: xs') (y :: ys') hprev hxs,
            ih (.ws0 :: rest) (some x) (some y) xs' ys' (by simp [hxy]) htl]
    | .wb :: rest =>
      simp only [matchFuel]
      rw [wordAt_congr prev prev' hprev, wordAtHead_congr xs ys hxs,
        ih rest prev prev' xs ys hprev hxs]

/-- `re.search` is invariant under changing the letter case of the
input. -/
theorem searchFrom_congr (p : List RAtom) :
    ∀ (xs ys : List Nat) (prev prev' : Option Nat),
      prev.map lowerCode = prev'.map lowerCode →
      xs.map lowerCode = ys.map lowerCode →
      searchFrom p prev xs = searchFrom p prev' ys := by
  intro xs
  induction xs with
  | nil =>
    intro ys prev prev' hprev hxs
    cases ys with
    | nil =>
      simp only [searchFrom]
      exact matchFuel_congr _ p prev prev' [] [] hprev rfl
    | cons y ys' => exact absurd hxs (by simp)
  | cons x xs' ih =>
    intro ys prev prev' hprev hxs
    cases ys with
    | nil => exact absurd hxs (by simp)
    | cons y ys' =>
      have hxs' := hxs
      simp only [List.map_cons, List.cons.injEq] at hxs'
      obtain ⟨hxy, htl⟩ := hxs'
      have hlen : xs'.length = ys'.length := by
        have := congrArg List.length htl
        simpa using this
      simp only [searchFrom]
      unfold matchRA
      rw [show (x :: xs').length = (y :: ys').length by simp [hlen],
        matchFuel_congr _ p prev prev' (x :: xs') (y :: ys') hprev hxs,
        ih ys' (some x) (some y) (by simp [hxy]) htl]

/-- Pointwise-equal predicates find the same first element. -/
theorem find?_ext {α : Type} (P Q : α → Bool) (hPQ : ∀ x, P x = Q x) :
    ∀ l : List α, l.find? P = l.find? Q := by
  intro l
  induction l with
  | nil => rfl
  | cons a t ih => simp only [List.find?_cons, hPQ a, ih]

/-! ## Claim C10 -/

/-- **C10**: risk classification is case-insensitive: inputs with the same
ASCII lower-casing get the same risk score, the same risk level, the same
riskiness verdict (with the same reason) and the same warning verdict,
because every pattern search runs case-insensitively. -/
theorem classification_case_insensitive (xs ys : List Nat)
    (h : xs.map lowerCode = ys.map lowerCode) :
    calculate_risk_score xs = calculate_risk_score ys ∧
    get_risk_level xs = get_risk_level ys ∧
    is_command_risky xs = is_command_risky ys ∧
    has_command_warning xs = has_command_warning ys := by
  have hsearch : ∀ p : List RAtom, reSearch p xs = reSearch p ys := by
    intro p
    exact searchFrom_congr p xs ys none none rfl h
  have hany : ∀ pats : List (List RAtom),
      (pats.any fun p => reSearch p xs) = (pats.any fun p => reSearch p ys) := by
    intro pats
    induction pats with
    | nil => rfl
    | cons a t ih => simp only [List.any_cons, hsearch a, ih]
  have hscore : calculate_risk_score xs = calculate_risk_score ys := by
    unfold calculate_risk_score
    rw [hany level5_patterns, hany level4_patterns, hany level3_patterns,
      hany level2_patterns, hany read_only_patterns]
  refine ⟨hscore, ?_, ?_, ?_⟩
  · unfold get_risk_level
    rw [hscore]
  · unfold is_command_risky
    rw [find?_ext _ _ (fun pr => hany pr.1) dangerous_patterns]
  · unfold has_command_warning
    rw [find?_ext _ _ (fun pr => hsearch pr.1) warning_patterns]

/-- Witness for C10: `RM -RF /` lower-cases to `rm -rf /` and classifies
identically (CRITICAL, score 5). -/
theorem classification_case_insensitive_witness :
    (codes "RM -RF /").map lowerCode = (codes "rm -rf /").map lowerCode ∧
    (calculate_risk_score (codes "RM -RF /") = calculate_risk_score (codes "rm -rf /") ∧
      get_risk_level (codes "RM -RF /") = get_risk_level (codes "rm -rf /") ∧
      is_command_risky (codes "RM -RF /") = is_command_risky (codes "rm -rf /") ∧
      has_command_warning (codes "RM -RF /") = has_command_warning (codes "rm -rf /")) ∧
    get_risk_level (codes "RM -RF /") = "CRITICAL" :=
  ⟨by decide, classification_case_insensitive _ _ (by decide), by decide⟩

/-- The matcher's value does not depend on the fuel once the fuel exceeds
`input length + pattern length`. -/
theorem matchFuel_irrel : ∀ (f g : Nat) (p : List RAtom) (prev : Option Nat) (xs : List Nat),
    xs.length + p.length < f → xs.length + p.length < g →
    matchFuel f p prev xs = matchFuel g p prev xs := by
  intro f
  induction f with
  | zero => intro g p prev xs hf; omega
  | succ f ih =>
    intro g p prev xs hf hg
    cases g with
    | zero => omega
    | succ g =>
      match p with
      | [] => rfl
      | .lit c :: rest =>
        cases xs with
        | nil => rfl
        | cons x xs' =>
          simp only [List.length_cons] at hf hg
          simp only [matchFuel]
          rw [ih g rest (some x) xs' (by omega) (by omega)]
      | .ws1 :: rest =>
        cases xs with
        | nil => rfl
        | cons x xs' =>
          simp only [List.length_cons] at hf hg
          simp only [matchFuel]
          rw [ih g rest (some x) xs' (by omega) (by omega),
            ih g (.ws1 :: rest) (some x) xs' (by simp; omega) (by simp; omega)]
      | .ws0 :: rest =>
        cases xs with
        | nil =>
          simp only [List.length_cons, List.length_nil] at hf hg
          simp only [matchFuel]
          rw [ih g rest prev [] (by simp; omega) (by simp; omega)]
        | cons x xs' =>
          simp only [List.length_cons] at hf hg
          simp only [matchFuel]
          rw [ih g rest prev (x :: xs') (by simp; omega) (by simp; omega),
            ih g (.ws0 :: rest) (some x) xs' (by simp; omega) (by simp; omega)]
      | .wb :: rest =>
        simp only [List.length_cons] at hf hg
        simp only [matchFuel]
        rw [ih g rest prev xs (by omega) (by omega)]

/-- Any fuel above `input length + pattern length` computes `matchRA`:
the fuel in the model is merely a structural-recursion device. -/
theorem matchFuel_stable (f : Nat) (p : List RAtom) (prev : Option Nat) (xs : List Nat)
    (h : xs.length + p.length < f) : matchFuel f p prev xs = matchRA p prev xs :=
  matchFuel_irrel f (xs.length + p.length + 1) p prev xs h (by omega)

/-- Witness that `matchFuel_stable` applies at a concrete instance. -/
theorem matchFuel_stable_witness :
    (codes "rm -rf /").length + (pat "\\brm\\s+-rf\\s+/").length < 60 ∧
    matchFuel 60 (pat "\\brm\\s+-rf\\s+/") none (codes "rm -rf /") =
      matchRA (pat "\\brm\\s+-rf\\s+/") none (codes "rm -rf /") :=
  ⟨by decide, matchFuel_stable 60 _ none _ (by decide)⟩

/-! ## The GoalLoop under a never-terminating reasoner (C6, C7) -/

/-- `_act` can never report a critical failure: it reads the key
`exit_code`, which the executor result never carries (the executor writes
`return_code`), so the `critical_failure` flag is always false. -/
theorem act_critical_failure_false (a : PlannedAction) (auto : Bool)
    (ans : List (Option Bool)) (o : ExecOutcome) :
    pyGet (act a auto ans o) "critical_failure" (.bool false) = .bool false := by
  simp only [act]
  split
  · rfl
  · cases o <;>
      simp [pyGet, execute_commands_entry, execute_single_command, pyNeZero, List.find?]

/-- The act phase never changes the `goal_achieved` flag. -/
theorem act_phase_achieved (C : Collaborator) (auto : Bool) :
    ∀ (actions : List PlannedAction) (st : LoopState)
      (acc : List (PlannedAction × List (String × PyVal))),
      (act_phase C auto actions st acc).1.goal_achieved = st.goal_achieved := by
  intro actions
  induction actions with
  | nil => intros; rfl
  | cons a rest ih =>
    intro st acc
    simp only [act_phase]
    rw [act_critical_failure_false]
    simp only [pyTruthy, Bool.false_eq_true, if_false]
    rw [ih]

/-- The act phase never sets `goal_impossible`, because `_act` never
reports a critical failure. -/
theorem act_phase_impossible (C : Collaborator) (auto : Bool) :
    ∀ (actions : List PlannedAction) (st : LoopState)
      (acc : List (PlannedAction × List (String × PyVal))),
      (act_phase C auto actions st acc).1.goal_impossible = st.goal_impossible := by
  intro actions
  induction actions with
  | nil => intros; rfl
  | cons a rest ih =>
    intro st acc
    simp only [act_phase]
    rw [act_critical_failure_false]
    simp only [pyTruthy, Bool.false_eq_true, if_false]
    rw [ih]

/-- The act phase never changes the iteration counter. -/
theorem act_phase_iteration (C : Collaborator) (auto : Bool) :
    ∀ (actions : List PlannedAction) (st : LoopState)
      (acc : List (PlannedAction × List (String × PyVal))),
      (act_phase C auto actions st acc).1.current_iteration = st.current_iteration := by
  intro actions
  induction actions with
  | nil => intros; rfl
  | cons a rest ih =>
    intro st acc
    simp only [act_phase]
    rw [act_critical_failure_false]
    simp only [pyTruthy, Bool.false_eq_true, if_false]
    rw [ih]

/-- Every action-history entry after the act phase is an old one or is
tagged with the running iteration. -/
theorem act_phase_history (C : Collaborator) (auto : Bool) :
    ∀ (actions : List PlannedAction) (st : LoopState)
      (acc : List (PlannedAction × List (String × PyVal))),
      ∀ e ∈ (act_phase C auto actions st acc).1.action_history,
        e ∈ st.action_history ∨ e.iteration = st.current_iteration := by
  intro actions
  induction actions with
  | nil =>
    intro st acc e he
    exact Or.inl he
  | cons a rest ih =>
    intro st acc e he
    simp only [act_phase] at he
    rw [act_critical_failure_false] at he
    simp only [pyTruthy, Bool.false_eq_true, if_false] at he
    rcases ih _ _ e he with hmem | hiter
    · simp only [List.mem_append, List.mem_singleton] at hmem
      rcases hmem with hold | hnew
      · exact Or.inl hold
      · right
        rw [hnew]
    · exact Or.inr hiter

/-- Under a reasoner that never reports achieved/impossible, one loop body
pass keeps `goal_achieved` unchanged. -/
theorem loop_body_achieved (C : Collaborator) (auto : Bool)
    (h : ∀ st, (C.reason st).goal_achieved = false ∧ (C.reason st).goal_impossible = false)
    (st : LoopState) :
    (loop_body C auto st).goal_achieved = st.goal_achieved := by
  simp only [loop_body, h, Bool.false_eq_true, if_false]
  split <;> (try split) <;> (try split) <;> simp [act_phase_achieved]

/-- Under such a reasoner one loop body pass keeps `goal_impossible`
unchanged (the act phase cannot set it). -/
theorem loop_body_impossible (C : Collaborator) (auto : Bool)
    (h : ∀ st, (C.reason st).goal_achieved = false ∧ (C.reason st).goal_impossible = false)
    (st : LoopState) :
    (loop_body C auto st).goal_impossible = st.goal_impossible := by
  simp only [loop_body, h, Bool.false_eq_true, if_false]
  split <;> (try split) <;> (try split) <;> simp [act_phase_impossible]

/-- One loop body pass increments the iteration counter by exactly one. -/
theorem loop_body_iteration (C : Collaborator) (auto : Bool)
    (h : ∀ st, (C.reason st).goal_achieved = false ∧ (C.reason st).goal_impossible = false)
    (st : LoopState) :
    (loop_body C auto st).current_iteration = st.current_iteration + 1 := by
  simp only [loop_body, h, Bool.false_eq_true, if_false]
  split <;> (try split) <;> (try split) <;> simp [act_phase_iteration]

/-- One loop body pass appends only entries tagged with the new iteration
number. -/
theorem loop_body_history (C : Collaborator) (auto : Bool)
    (h : ∀ st, (C.reason st).goal_achieved = false ∧ (C.reason st).goal_impossible = false)
    (st : LoopState) :
    ∀ e ∈ (loop_body C auto st).action_history,
      e ∈ st.action_history ∨ e.iteration = st.current_iteration + 1 := by
  intro e he
  simp only [loop_body, h, Bool.false_eq_true, if_false] at he
  split at he <;> (try split at he) <;> (try split at he) <;>
    first
    | exact Or.inl (by simpa using he)
    | (rcases act_phase_history C auto _ _ _ e (by simpa using he) with hmem | hiter
       · exact Or.inl (by simpa using hmem)
       · exact Or.inr (by simpa using hiter))

/-- Running the loop with fuel `n` from a live state whose counter is
`max_iterations - n` performs exactly `n` more iterations and never
terminates early. -/
theorem loop_iters_spec (C : Collaborator) (auto : Bool) (max_iterations : Nat)
    (h : ∀ st, (C.reason st).goal_achieved = false ∧ (C.reason st).goal_impossible = false) :
    ∀ (n : Nat) (st : LoopState),
      st.goal_achieved = false → st.goal_impossible = false →
      st.current_iteration + n = max_iterations →
      (∀ e ∈ st.action_history, 1 ≤ e.iteration ∧ e.iteration ≤ st.current_iteration) →
      (loop_iters C auto max_iterations n st).goal_achieved = false ∧
      (loop_iters C auto max_iterations n st).goal_impossible = false ∧
      (loop_iters C auto max_iterations n st).current_iteration = max_iterations ∧
      (∀ e ∈ (loop_iters C auto max_iterations n st).action_history,
        1 ≤ e.iteration ∧ e.iteration ≤ max_iterations) := by
  intro n
  induction n with
  | zero =>
    intro st ha hi hiter hhist
    simp only [loop_iters]
    exact ⟨ha, hi, by omega,
      fun e he => ⟨(hhist e he).1, by have := (hhist e he).2; omega⟩⟩
  | succ n ih =>
    intro st ha hi hiter hhist
    simp only [loop_iters]
    rw [if_pos ⟨by omega, by simp [ha], by simp [hi]⟩]
    refine ih (loop_body C auto st) ?_ ?_ ?_ ?_
    · rw [loop_body_achieved C auto h st, ha]
    · rw [loop_body_impossible C auto h st, hi]
    · rw [loop_body_iteration C auto h st]
      omega
    · intro e he
      rw [loop_body_iteration C auto h st]
      rcases loop_body_history C auto h st e he with hmem | hit
      · exact ⟨(hhist e hmem).1, by have := (hhist e hmem).2; omega⟩
      · omega

/-! ## Claim C7 -/

/-- **C7**: for every `max_iterations` and every collaborator whose
reasoning step never returns `goal_achieved` or `goal_impossible`,
`achieve_goal` runs exactly `max_iterations` iterations and reports
status `max_iterations`; every recorded action belongs to one of those
iterations (for `max_iterations = 1`, exactly to the single one). -/
theorem goal_loop_max_iterations (C : Collaborator) (auto_confirm : Bool)
    (max_iterations : Nat)
    (h : ∀ st, (C.reason st).goal_achieved = false ∧ (C.reason st).goal_impossible = false) :
    (achieve_goal C auto_confirm max_iterations).status = "max_iterations" ∧
    (achieve_goal C auto_confirm max_iterations).iterations = max_iterations ∧
    (∀ e ∈ (achieve_goal C auto_confirm max_iterations).action_history,
      1 ≤ e.iteration ∧ e.iteration ≤ max_iterations) := by
  obtain ⟨h1, h2, h3, h4⟩ :=
    loop_iters_spec C auto_confirm max_iterations h max_iterations (init_state C)
      rfl rfl (by simp [init_state]) (by simp [init_state])
  refine ⟨?_, ?_, ?_⟩
  · show (if (loop_iters C auto_confirm max_iterations max_iterations
        (init_state C)).goal_achieved then "achieved"
      else if (loop_iters C auto_confirm max_iterations max_iterations
        (init_state C)).goal_impossible then "impossible"
      else "max_iterations") = "max_iterations"
    rw [h1, h2]
    rfl
  · exact h3
  · exact h4

/-- Witness for C7: the idle collaborator with `max_iterations = 1`. -/
theorem goal_loop_max_iterations_witness :
    (achieve_goal idle_collab false 1).status = "max_iterations" ∧
    (achieve_goal idle_collab false 1).iterations = 1 ∧
    (∀ e ∈ (achieve_goal idle_collab false 1).action_history,
      1 ≤ e.iteration ∧ e.iteration ≤ 1) :=
  goal_loop_max_iterations idle_collab false 1 (fun _ => ⟨rfl, rfl⟩)

/-! ## Claim C6 -/

/-- **C6** (code bug in `_act`): the executor reports the exit status
under the key `return_code`, but `_act` computes `critical_failure` from
`result.get("exit_code", 0)`, so a failing action (success `False`,
reported exit code `-1`, real return code `1`) still has
`critical_failure = False`, and the loop runs to `max_iterations`
instead of aborting with IMPOSSIBLE. -/
theorem act_critical_failure_never_fires :
    pyGet (execute_single_command (.completed 1 "" "command failed"))
      "return_code" (.int 0) = .int 1 ∧
    pyGet (execute_single_command (.completed 1 "" "command failed"))
      "success" (.bool false) = .bool false ∧
    pyGet (execute_single_command (.completed 1 "" "command failed"))
      "exit_code" (.int 0) = .int 0 ∧
    (pyGet (act { command := "true", description := "always fails", todo_id := none }
        false [] (.completed 1 "" "command failed")) "success" (.bool false) = .bool false ∧
      pyGet (act { command := "true", description := "always fails", todo_id := none }
        false [] (.completed 1 "" "command failed")) "exit_code" (.int 0) = .int (-1) ∧
      pyGet (act { command := "true", description := "always fails", todo_id := none }
        false [] (.completed 1 "" "command failed")) "critical_failure" (.bool false) =
        .bool false) ∧
    (achieve_goal fail_collab false 2).status = "max_iterations" ∧
    (achieve_goal fail_collab false 2).iterations = 2 ∧
    (achieve_goal fail_collab false 2).action_history.length = 2 ∧
    (achieve_goal fail_collab false 2).action_history.map
      (fun e => pyGet e.result "success" (.bool false)) = [.bool false, .bool false] := by
  decide

/-! ## The two `_parse_response` repair loops (C8, C9) -/

/-- The padding while-loop appends default explanations until the target
length is reached (with enough fuel). -/
theorem pad_loop_spec : ∀ (f : Nat) (explanations : List Json) (cmdLen : Nat),
    cmdLen - explanations.length ≤ f →
    pad_loop f explanations cmdLen =
      explanations ++ List.replicate (cmdLen - explanations.length)
        (.str "Execute this command") := by
  intro f
  induction f with
  | zero =>
    intro explanations cmdLen hf
    have h0 : cmdLen - explanations.length = 0 := by omega
    simp [pad_loop, h0]
  | succ f ih =>
    intro explanations cmdLen hf
    simp only [pad_loop]
    by_cases hlt : explanations.length < cmdLen
    · rw [if_pos hlt, ih _ cmdLen (by simp; omega)]
      rw [List.append_assoc]
      congr 1
      rw [show cmdLen - explanations.length = (cmdLen - (explanations.length + 1)) + 1
        by omega]
      simp [List.replicate_succ]
    · rw [if_neg hlt]
      have h0 : cmdLen - explanations.length = 0 := by omega
      simp [h0]

/-- The truncation while-loop pops from `commands`, the shorter list, so
it can never close the gap: whenever commands are fewer than
explanations it empties the list and raises `IndexError` (for any
sufficient fuel). -/
theorem pop_loop_spec_fuel : ∀ (f : Nat) (commands : List Json) (explLen : Nat),
    commands.length < f →
    pop_loop f commands explLen =
      if commands.length < explLen then .error "IndexError: pop from empty list"
      else .ok commands := by
  intro f
  induction f with
  | zero => intro c e h; omega
  | succ f ih =>
    intro c e h
    simp only [pop_loop]
    by_cases hlt : c.length < e
    · rw [if_pos hlt, if_pos hlt]
      by_cases hemp : c.isEmpty
      · rw [if_pos hemp]
      · rw [if_neg hemp]
        have hlen : c.dropLast.length = c.length - 1 := List.length_dropLast c
        have hne : c ≠ [] := by
          intro hc
          rw [hc] at hemp
          exact hemp rfl
        have hpos : 0 < c.length := List.length_pos.mpr hne
        rw [ih c.dropLast e (by omega), if_pos (by omega)]
    · rw [if_neg hlt, if_neg hlt]

/-- The truncation loop at its call-site fuel. -/
theorem pop_loop_spec (commands : List Json) (explLen : Nat) :
    pop_loop (commands.length + 1) commands explLen =
      if commands.length < explLen then .error "IndexError: pop from empty list"
      else .ok commands :=
  pop_loop_spec_fuel (commands.length + 1) commands explLen (by omega)

/-! ## Claim C8 -/

/-- **C8** (code bug in `_parse_response`'s repair): when explanations are
fewer they are padded with the default explanation up to the command
count, but when commands are fewer the repair loop pops from `commands`
— the shorter list — so it drains it and raises `IndexError` instead of
truncating to equal lengths. -/
theorem parse_response_mismatch_repair :
    parse_response mismatch_more_cmds =
      .ok { commands := [.str "ls", .str "pwd"],
            explanations := [.str "List files", .str "Execute this command"],
            safe := .bool true, error := none } ∧
    parse_response mismatch_more_expl = .error "IndexError: pop from empty list" ∧
    (∀ (commands : List Json) (explLen : Nat),
      pop_loop (commands.length + 1) commands explLen =
        if commands.length < explLen then .error "IndexError: pop from empty list"
        else .ok commands) ∧
    (∀ (explanations : List Json) (cmdLen : Nat),
      pad_loop cmdLen explanations cmdLen =
        explanations ++ List.replicate (cmdLen - explanations.length)
          (.str "Execute this command")) :=
  ⟨rfl, rfl, pop_loop_spec,
    fun explanations cmdLen => pad_loop_spec cmdLen explanations cmdLen (by omega)⟩

/-! ## Claim C9 -/

/-- **C9 counterexample**: wrapping a valid generation response in
markdown code fences does not yield the same parse from the
command-generation parser: the unwrapped response parses its commands,
the wrapped one is treated as malformed JSON. -/
theorem fenced_wrapping_changes_parse :
    parse_response good_response =
      .ok { commands := [.str "ls"], explanations := [.str "List files"],
            safe := .bool true, error := none } ∧
    parse_response fenced_good_response =
      .ok { commands := [], explanations := [], safe := .bool false,
            error := some ("Invalid JSON response: " ++
              String.mk (fenced_good_response.data.take 100) ++ "...") } ∧
    parse_response fenced_good_response ≠ parse_response good_response := by
  refine ⟨rfl, rfl, ?_⟩
  intro hcontra
  rw [show parse_response fenced_good_response =
        .ok { commands := [], explanations := [], safe := .bool false,
              error := some ("Invalid JSON response: " ++
                String.mk (fenced_good_response.data.take 100) ++ "...") } from rfl,
      show parse_response good_response =
        .ok { commands := [.str "ls"], explanations := [.str "List files"],
              safe := .bool true, error := none } from rfl] at hcontra
  simp at hcontra

/-- **C9 amended**: code-fence stripping lives only in the ReAct agent's
JSON parser, which parses the fenced response to the same object; the
command-generation parser treats any fenced (hence non-JSON) response as
malformed, returning empty commands and explanations and a populated
error message without raising — as it does for every malformed
response. -/
theorem malformed_response_error_result (content : String)
    (h : jsonLoads (pyStripChars content.data) = none) :
    parse_response content =
      .ok { commands := [], explanations := [], safe := .bool false,
            error := some ("Invalid JSON response: " ++
              String.mk (content.data.take 100) ++ "...") } ∧
    react_parse_json fenced_good_response =
      .ok (.obj [("commands", .arr [.str "ls"]),
                 ("explanations", .arr [.str "List files"]),
                 ("safe", .bool true)]) := by
  constructor
  · unfold parse_response
    rw [h]
  · rfl

/-- Witness for the amended C9 at the fenced response itself. -/
theorem malformed_response_error_result_witness :
    jsonLoads (pyStripChars fenced_good_response.data) = none ∧
    (parse_response fenced_good_response =
      .ok { commands := [], explanations := [], safe := .bool false,
            error := some ("Invalid JSON response: " ++
              String.mk (fenced_good_response.data.take 100) ++ "...") } ∧
    react_parse_json fenced_good_response =
      .ok (.obj [("commands", .arr [.str "ls"]),
                 ("explanations", .arr [.str "List files"]),
                 ("safe", .bool true)])) :=
  ⟨rfl, malformed_response_error_result fenced_good_response rfl⟩
